import Mathlib

/-!
Shallow embedding of the Tauri command surface in `src/src-tauri/src/lib.rs`
of the LoRA-Craft repository, together with theorems settling the frozen
claims about it.

Host-capability handles (the application handle and the window handle) are
modelled as records carrying the outcome each host query or host operation
would produce for that handle: `app.path().app_data_dir()` becomes a field
of type `Except String String` (the `map_err(|e| e.to_string())` step means
only the failure message is ever observed, so the host error is modelled as
its message; `PathBuf` is modelled as its `to_string_lossy` string form).
Window commands are embedded as pure functions returning their Rust return
value together with the list of requests they issue to the host runtime,
so that "issues exactly one unmaximize request" and similar claims about
the command/host interaction are statable.
-/

namespace LoRACraft

/-- Application handle: outcome of the two host directory queries, after
Rust maps the host error to its string message and the resolved `PathBuf`
to its lossy string form. -/
structure AppHandle where
  app_data_dir : Except String String
  app_config_dir : Except String String

/-- The JSON object built by `get_app_paths` on success:
`{"appData": ..., "appConfig": ...}`. -/
structure AppPaths where
  appData : String
  appConfig : String
deriving Repr, DecidableEq

/-- Embedding of `get_app_paths`: query the app-data directory, propagating
failure with `?`; then query the app-config directory, propagating failure
with `?`; on success return the two strings under keys `appData` and
`appConfig`. -/
def get_app_paths (app : AppHandle) : Except String AppPaths :=
  match app.app_data_dir with
  | Except.error e => Except.error e
  | Except.ok app_data_dir =>
    match app.app_config_dir with
    | Except.error e => Except.error e
    | Except.ok app_config_dir =>
      Except.ok { appData := app_data_dir, appConfig := app_config_dir }

/-- The window-manipulation requests a command can issue to the host. -/
inductive WinRequest where
  | minimize
  | maximize
  | unmaximize
  | close
deriving Repr, DecidableEq

/-- Window handle: outcome of the host maximized-state query
(`window.is_maximized()`), and outcomes of the four host window operations
(each discarded by the Rust code via `let _ = ...`). -/
structure Window where
  is_maximized_result : Except String Bool
  minimize_result : Except String Unit
  maximize_result : Except String Unit
  unmaximize_result : Except String Unit
  close_result : Except String Unit

/-- Embedding of Rust `Result::unwrap_or` at the type used by
`window.is_maximized().unwrap_or(false)`. -/
def unwrap_or (r : Except String Bool) (d : Bool) : Bool :=
  match r with
  | Except.ok b => b
  | Except.error _ => d

/-- Embedding of `minimize_window`: issue a minimize request, discard its
result, return unit. -/
def minimize_window (w : Window) : Unit × List WinRequest :=
  let _ := w.minimize_result
  ((), [WinRequest.minimize])

/-- Embedding of `maximize_window`: query the maximized state with failure
defaulting to `false`; if maximized, issue an unmaximize request, else a
maximize request; discard the request result, return unit. -/
def maximize_window (w : Window) : Unit × List WinRequest :=
  if unwrap_or w.is_maximized_result false then
    let _ := w.unmaximize_result
    ((), [WinRequest.unmaximize])
  else
    let _ := w.maximize_result
    ((), [WinRequest.maximize])

/-- Embedding of `close_window`: issue a close request, discard its result,
return unit. -/
def close_window (w : Window) : Unit × List WinRequest :=
  let _ := w.close_result
  ((), [WinRequest.close])

/-- Embedding of the command `is_maximized`:
`window.is_maximized().unwrap_or(false)`. -/
def is_maximized (w : Window) : Bool :=
  unwrap_or w.is_maximized_result false

/-- Host-side window state (lives in the host runtime, not in the command
surface). -/
structure WinState where
  minimized : Bool
  maximized : Bool
  closed : Bool
deriving Repr, DecidableEq

/-- Modelled from the spec: the host runtime applying a window request.
The window-manager implementation is not part of this repository (the spec
places it out of scope); the spec states the side effects: minimize means
the "window visually minimizes", maximize and unmaximize set and clear the
maximized state, close means the "window closes". -/
def applyRequest (s : WinState) : WinRequest → WinState
  | WinRequest.minimize => { s with minimized := true }
  | WinRequest.maximize => { s with maximized := true }
  | WinRequest.unmaximize => { s with maximized := false }
  | WinRequest.close => { s with closed := true }

/-- Run one window command against a host state: apply, in order, every
request the command issues. -/
def runWindowCommand (s : WinState) (cmd : Window → Unit × List WinRequest)
    (w : Window) : WinState :=
  ((cmd w).2).foldl applyRequest s

/-- A valid application handle: when a host directory query succeeds it
resolves to an actual (non-empty) platform directory string. -/
def ValidAppHandle (app : AppHandle) : Prop :=
  (∀ p, app.app_data_dir = Except.ok p → p ≠ "") ∧
  (∀ p, app.app_config_dir = Except.ok p → p ≠ "")

/-- Claim C1: when both host directory queries succeed, `get_app_paths`
returns `Ok` with `appData` the string form of the resolved app-data
directory and `appConfig` the string form of the resolved app-config
directory. -/
theorem get_app_paths_ok (app : AppHandle) (d c : String)
    (hd : app.app_data_dir = Except.ok d)
    (hc : app.app_config_dir = Except.ok c) :
    get_app_paths app = Except.ok { appData := d, appConfig := c } := by
  simp [get_app_paths, hd, hc]

/-- Witness for C1: the concrete scenario from the spec, resolving
`/home/u/.local/share/app` and `/home/u/.config/app`. -/
theorem get_app_paths_ok_witness :
    get_app_paths ⟨Except.ok "/home/u/.local/share/app",
        Except.ok "/home/u/.config/app"⟩
      = Except.ok (AppPaths.mk "/home/u/.local/share/app"
          "/home/u/.config/app") :=
  get_app_paths_ok _ _ _ rfl rfl

/-- Claim C2: when the maximized-state query returns `true`,
`maximize_window` issues exactly the single request `unmaximize` — in
particular no maximize request. -/
theorem maximize_window_when_maximized (w : Window)
    (h : w.is_maximized_result = Except.ok true) :
    (maximize_window w).2 = [WinRequest.unmaximize] ∧
    WinRequest.maximize ∉ (maximize_window w).2 := by
  simp [maximize_window, unwrap_or, h]

/-- Witness for C2: a concrete window whose maximized-state query returns
`true`. -/
theorem maximize_window_when_maximized_witness :
    (maximize_window ⟨Except.ok true, Except.ok (), Except.ok (),
        Except.ok (), Except.ok ()⟩).2 = [WinRequest.unmaximize] ∧
    WinRequest.maximize ∉ (maximize_window ⟨Except.ok true, Except.ok (),
        Except.ok (), Except.ok (), Except.ok ()⟩).2 :=
  maximize_window_when_maximized _ rfl

/-- Claim C3: `is_maximized` always returns a boolean (it is total); when
the host query succeeds it returns the queried state, and when the query
fails it returns `false`, never propagating the error. -/
theorem is_maximized_total (w : Window) :
    (∀ b, w.is_maximized_result = Except.ok b → is_maximized w = b) ∧
    (∀ e, w.is_maximized_result = Except.error e → is_maximized w = false) := by
  constructor
  · intro b hb
    simp [is_maximized, unwrap_or, hb]
  · intro e he
    simp [is_maximized, unwrap_or, he]

/-- Witness for C3: a successful query returning `true` yields `true`; a
failing query yields `false`. -/
theorem is_maximized_total_witness :
    is_maximized ⟨Except.ok true, Except.ok (), Except.ok (), Except.ok (),
        Except.ok ()⟩ = true ∧
    is_maximized ⟨Except.error "host failure", Except.ok (), Except.ok (),
        Except.ok (), Except.ok ()⟩ = false :=
  ⟨(is_maximized_total _).1 true rfl,
   (is_maximized_total _).2 "host failure" rfl⟩

/-- Claim C4: when either directory query fails, `get_app_paths` returns
`Except.error` carrying that host failure message — an error value and no
partial result (the `Except.error` constructor carries no path at all). -/
theorem get_app_paths_error (app : AppHandle) :
    (∀ e, app.app_data_dir = Except.error e →
      get_app_paths app = Except.error e) ∧
    (∀ d e, app.app_data_dir = Except.ok d →
      app.app_config_dir = Except.error e →
      get_app_paths app = Except.error e) := by
  constructor
  · intro e he
    simp [get_app_paths, he]
  · intro d e hd he
    simp [get_app_paths, hd, he]

/-- Witness for C4: a failing app-data query and a failing app-config query
each produce the corresponding error value. -/
theorem get_app_paths_error_witness :
    get_app_paths ⟨Except.error "denied", Except.ok "/home/u/.config/app"⟩
      = Except.error "denied" ∧
    get_app_paths ⟨Except.ok "/home/u/.local/share/app",
        Except.error "denied"⟩ = Except.error "denied" :=
  ⟨(get_app_paths_error _).1 "denied" rfl,
   (get_app_paths_error _).2 "/home/u/.local/share/app" "denied" rfl rfl⟩

/-- Claim C5: when the maximized-state query fails, `maximize_window` still
issues a maximize request (the failure defaults to "not maximized") and
does not abort: the command completes, returning unit. -/
theorem maximize_window_query_failure (w : Window) (e : String)
    (h : w.is_maximized_result = Except.error e) :
    maximize_window w = ((), [WinRequest.maximize]) := by
  simp [maximize_window, unwrap_or, h]

/-- Witness for C5: a concrete window whose maximized-state query fails. -/
theorem maximize_window_query_failure_witness :
    maximize_window ⟨Except.error "host failure", Except.ok (), Except.ok (),
        Except.ok (), Except.ok ()⟩ = ((), [WinRequest.maximize]) :=
  maximize_window_query_failure _ "host failure" rfl

/-- Claim C6: for every window handle — hence for every outcome, success or
failure, of the underlying host operations carried by the handle — each of
`minimize_window`, `maximize_window` and `close_window` returns unit and
its full behaviour is independent of those outcomes: the host failure is
discarded entirely and no error reaches the caller. -/
theorem window_commands_swallow (w : Window) :
    minimize_window w = ((), [WinRequest.minimize]) ∧
    close_window w = ((), [WinRequest.close]) ∧
    (maximize_window w).1 = () ∧
    (∀ rm ru rc rmin,
      maximize_window ⟨w.is_maximized_result, rmin, rm, ru, rc⟩
        = maximize_window w) := by
  refine ⟨rfl, rfl, rfl, ?_⟩
  intro rm ru rc rmin
  by_cases h : unwrap_or w.is_maximized_result false <;>
    simp [maximize_window, h]

/-- Claim C7: for every valid application handle, `get_app_paths` returns
either a success with two non-empty path strings or an error string —
never both absent, and never a success with an empty path. -/
theorem get_app_paths_valid_total (app : AppHandle)
    (h : ValidAppHandle app) :
    (∃ r, get_app_paths app = Except.ok r ∧
      r.appData ≠ "" ∧ r.appConfig ≠ "") ∨
    (∃ e, get_app_paths app = Except.error e) := by
  rcases hd : app.app_data_dir with e | d
  · exact Or.inr ⟨e, (get_app_paths_error app).1 e hd⟩
  · rcases hc : app.app_config_dir with e | c
    · exact Or.inr ⟨e, (get_app_paths_error app).2 d e hd hc⟩
    · refine Or.inl ⟨{ appData := d, appConfig := c }, ?_, ?_, ?_⟩
      · simp [get_app_paths, hd, hc]
      · exact h.1 d hd
      · exact h.2 c hc

/-- Witness for C7: a concrete valid handle resolving both directories. -/
theorem get_app_paths_valid_total_witness :
    (∃ r, get_app_paths ⟨Except.ok "/home/u/.local/share/app",
        Except.ok "/home/u/.config/app"⟩ = Except.ok r ∧
      r.appData ≠ "" ∧ r.appConfig ≠ "") ∨
    (∃ e, get_app_paths ⟨Except.ok "/home/u/.local/share/app",
        Except.ok "/home/u/.config/app"⟩ = Except.error e) :=
  get_app_paths_valid_total _
    ⟨fun p hp => by
        injection hp with hp
        subst hp
        decide,
     fun p hp => by
        injection hp with hp
        subst hp
        decide⟩

/-- Claim C8: every invocation of `close_window`, on every window handle
(whatever its host-side outcomes and regardless of any prior window state,
which the command never reads), issues exactly one close request. -/
theorem close_window_once (w : Window) :
    (close_window w).2.count WinRequest.close = 1 ∧
    close_window w = ((), [WinRequest.close]) := by
  exact ⟨rfl, rfl⟩

/-- Claim C9: calling `minimize_window` twice in succession is idempotent:
starting from any host window state, after the second call the window is
minimized (exactly as after the first), and both calls return unit, so no
error is surfaced by the second call even though the window is already
minimized. -/
theorem minimize_window_idempotent (w : Window) (s : WinState) :
    (runWindowCommand (runWindowCommand s minimize_window w)
        minimize_window w).minimized = true ∧
    runWindowCommand (runWindowCommand s minimize_window w)
        minimize_window w
      = runWindowCommand s minimize_window w ∧
    (minimize_window w).1 = () := by
  refine ⟨rfl, ?_, rfl⟩
  simp [runWindowCommand, minimize_window, applyRequest]

/-- Claim C10: `get_app_paths` queries the app-data directory first and
short-circuits on its failure: the result is the app-data failure message,
and it is independent of the app-config field — the app-config directory
is never queried. -/
theorem get_app_paths_short_circuit (app : AppHandle) (e : String)
    (h : app.app_data_dir = Except.error e) :
    get_app_paths app = Except.error e ∧
    (∀ cfg, get_app_paths { app with app_config_dir := cfg }
      = Except.error e) := by
  constructor
  · simp [get_app_paths, h]
  · intro cfg
    simp [get_app_paths, h]

/-- Witness for C10: a concrete handle whose app-data query fails; the
result is that failure message both for the original app-config field and
for a replaced one. -/
theorem get_app_paths_short_circuit_witness :
    get_app_paths ⟨Except.error "denied", Except.ok "/home/u/.config/app"⟩
      = Except.error "denied" ∧
    get_app_paths ⟨Except.error "denied", Except.ok "/somewhere/else"⟩
      = Except.error "denied" :=
  ⟨(get_app_paths_short_circuit
      ⟨Except.error "denied", Except.ok "/home/u/.config/app"⟩ "denied"
      rfl).1,
   (get_app_paths_short_circuit
      ⟨Except.error "denied", Except.ok "/home/u/.config/app"⟩ "denied"
      rfl).2 (Except.ok "/somewhere/else")⟩

end LoRACraft
